import Mathlib

set_option maxHeartbeats 1000000

/-!
Verification development for the `asserting` Go package (github.com/mkch/asserting):
a shallow embedding of the condition/equality subsystem (asserting.go and cond/cond.go)
and proofs about its equality algorithm `eq`, the untyped-value cross-kind comparisons,
the condition variants (Equals, NotEquals, Matches, Panics, PanicMatches, EqualsSlice),
message formatting (`formatMsg`), the deferred-error carrier (`ValueError`) and the
evaluator (`TB.Assert`).

Go interface values are modelled by the closed inductive type `GoVal`, covering the
value kinds the library's code and tests exercise: the nil interface, signed and
unsigned integers of every width, floats, complex numbers, strings, typed pointers,
slices, zero-argument functions, runtime errors, and the five untyped wrappers
(untypedInt, untypedUint, untypedFloat, untypedString, untypedComplex).
Machine integers are carried as unbounded Int/Nat with explicit range hypotheses or
`% 2^64` where Go performs a conversion.  Code that can terminate by a run-time
fault (an uncaught Go panic inside Test) is modelled with `Option`: `none` is a
fault that propagates out of `Assert`.
-/

namespace Asserting

/-- The signed-integer reflect kinds (`reflect.Int` .. `reflect.Int64`). -/
inductive SKind where
  | int
  | int8
  | int16
  | int32
  | int64
  deriving DecidableEq, Repr

/-- The unsigned-integer reflect kinds (`reflect.Uint` .. `reflect.Uint64`). -/
inductive UKind where
  | uint
  | uint8
  | uint16
  | uint32
  | uint64
  deriving DecidableEq, Repr

/-- The floating-point reflect kinds. -/
inductive FKind where
  | float32
  | float64
  deriving DecidableEq, Repr

/-- The complex reflect kinds. -/
inductive CKind where
  | complex64
  | complex128
  deriving DecidableEq, Repr

/-- A floating-point datum: a finite value carried as its exact rational value, an
infinity, or a NaN.  Go's `==` on floats is exact equality of finite values, with
every comparison against NaN false; `+0` and `-0` compare equal under `==`, so both
are `fin 0`.  Widening float32 to float64 (what `reflect.Value.Float` does) is exact,
so one datum type serves both widths. -/
inductive F64 where
  | fin (q : ℚ)
  | inf (neg : Bool)
  | nan
  deriving DecidableEq, Repr

/-- Go's `==` on two floating-point data (both already widened to float64). -/
def fBeq : F64 → F64 → Bool
  | .fin a, .fin b => decide (a = b)
  | .inf s, .inf t => decide (s = t)
  | _, _ => false

/-- A Go `interface{}` value, restricted to the closed set of dynamic types that the
library and its tests exercise.

* `nilV` is the nil interface value.
* `ptrV ty addr` is a typed pointer; `ty` is the `%T` string (for example `"*int"`)
  and `addr = none` is the nil pointer.  The pointee is not modelled.
* `sliceV ty elems` is a slice; `elems = none` is the typed nil slice.
* `funcV b` is a value of type `func()`: `b = none` is the nil function,
  `b = some none` a function that returns normally, and `b = some (some x)` a
  function that panics with the value `x`.  A function value is modelled by its
  behaviour when called; addresses of functions are not modelled.
* `runtimeErrorV msg` is the `runtime.Error` thrown by the runtime (used here for
  the nil-function call fault); its concrete type has underlying kind string.
* the five `untyped*V` constructors are the library's unexported wrapper types
  `untypedInt`, `untypedUint`, `untypedFloat`, `untypedString`, `untypedComplex`;
  being defined types, their reflect kind is the underlying kind
  (Int64, Uint64, Float64, String, Complex128 respectively). -/
inductive GoVal where
  | nilV
  | intV (k : SKind) (n : Int)
  | uintV (k : UKind) (n : Nat)
  | floatV (k : FKind) (x : F64)
  | complexV (k : CKind) (re im : F64)
  | stringV (s : String)
  | ptrV (ty : String) (addr : Option Nat)
  | sliceV (ty : String) (elems : Option (List GoVal))
  | funcV (b : Option (Option GoVal))
  | runtimeErrorV (msg : String)
  | untypedIntV (n : Int)
  | untypedUintV (n : Nat)
  | untypedFloatV (x : F64)
  | untypedStringV (s : String)
  | untypedComplexV (re im : F64)

/-- Whether the value is the nil interface (Go `v == nil` on an `interface{}`). -/
def isNilI : GoVal → Bool
  | .nilV => true
  | _ => false

/-- Whether the dynamic type has reflect kind Slice. -/
def isSliceB : GoVal → Bool
  | .sliceV _ _ => true
  | _ => false

/-- Whether the dynamic type is `func()`. -/
def isFuncB : GoVal → Bool
  | .funcV _ => true
  | _ => false

/-- Go's native interface equality `a == b` (step 1 of `eq`).  Two interface values
with different dynamic types compare unequal; with identical comparable dynamic
types they compare by value; with identical non-comparable dynamic types (slice,
func) the comparison is a run-time panic, modelled as `none`. -/
def goEq : GoVal → GoVal → Option Bool
  | .nilV, .nilV => some true
  | .intV k n, .intV l m => some (decide (k = l) && decide (n = m))
  | .uintV k n, .uintV l m => some (decide (k = l) && decide (n = m))
  | .floatV k x, .floatV l y => some (decide (k = l) && fBeq x y)
  | .complexV k r i, .complexV l r2 i2 => some (decide (k = l) && fBeq r r2 && fBeq i i2)
  | .stringV s, .stringV t => some (decide (s = t))
  | .ptrV ty a, .ptrV ty2 a2 => some (decide (ty = ty2) && decide (a = a2))
  | .sliceV ty _, .sliceV ty2 _ => if ty = ty2 then none else some false
  | .funcV _, .funcV _ => none
  | .runtimeErrorV m, .runtimeErrorV m2 => some (decide (m = m2))
  | .untypedIntV n, .untypedIntV m => some (decide (n = m))
  | .untypedUintV n, .untypedUintV m => some (decide (n = m))
  | .untypedFloatV x, .untypedFloatV y => some (fBeq x y)
  | .untypedStringV s, .untypedStringV t => some (decide (s = t))
  | .untypedComplexV r i, .untypedComplexV r2 i2 => some (fBeq r r2 && fBeq i i2)
  | _, _ => some false

/-- `equalsNil v`: whether `v` is a nil interface or a value of nilable kind whose
value is nil (source function `equalsNil`).  The nilable kinds present in `GoVal`
are pointer, slice and func; numbers, strings, complex values and the untyped
wrappers are never nil. -/
def equalsNil : GoVal → Bool
  | .nilV => true
  | .ptrV _ none => true
  | .sliceV _ none => true
  | .funcV none => true
  | _ => false

/-- Go's `uint64(i)` conversion of an `int64` payload: two's-complement
reinterpretation, i.e. the value modulo `2^64`. -/
def goUint64OfInt (i : Int) : Nat := (i % (2 ^ 64 : Int)).toNat

/-- The number of low-order bits dropped by rounding a magnitude `m > 2^53` to
float64 precision (53-bit significand).  Valid for `m ≤ 2^64`, which covers every
int64 and uint64 magnitude; at exact powers of two the choice is irrelevant since
the value is representable on either grid. -/
def fracBits (m : Nat) : Nat :=
  if m ≤ 2 ^ 54 then 1
  else if m ≤ 2 ^ 55 then 2
  else if m ≤ 2 ^ 56 then 3
  else if m ≤ 2 ^ 57 then 4
  else if m ≤ 2 ^ 58 then 5
  else if m ≤ 2 ^ 59 then 6
  else if m ≤ 2 ^ 60 then 7
  else if m ≤ 2 ^ 61 then 8
  else if m ≤ 2 ^ 62 then 9
  else if m ≤ 2 ^ 63 then 10
  else 11

/-- Round `m` to the nearest multiple of `2^k`, ties to the even multiple
(IEEE 754 round-to-nearest-even, the rounding Go applies in integer-to-float
conversions). -/
def rneNat (m : Nat) (k : Nat) : Nat :=
  let p := 2 ^ k
  let q := m / p
  let r := m % p
  if 2 * r < p then q * p
  else if p < 2 * r then (q + 1) * p
  else if q % 2 = 0 then q * p else (q + 1) * p

/-- The exact rational value of Go's `float64(n)` conversion of an integer:
exact when `|n| ≤ 2^53`, otherwise rounded to nearest, ties to even.
Valid for the int64/uint64 range (`|n| ≤ 2^64`), the only inputs the library
produces. -/
def floatOfInt (n : Int) : ℚ :=
  let m := n.natAbs
  if m ≤ 2 ^ 53 then (n : ℚ)
  else
    let v : ℚ := (rneNat m (fracBits m) : ℚ)
    if n < 0 then -v else v

/-- `untypedInt.equals`: the kind-specific comparison of an untyped integer with
value `i` against `r`, dispatching on the reflect kind of `r` exactly as the
source's switch does.  The untyped wrappers appear here because their reflect
kinds are the underlying kinds (untypedInt is Int64, untypedUint is Uint64,
untypedFloat is Float64); `runtimeErrorV` has kind String and falls to the
default. -/
def untypedIntEquals (i : Int) (r : GoVal) : Bool :=
  match r with
  | .intV _ n => decide (i = n)
  | .untypedIntV n => decide (i = n)
  | .uintV _ m => decide (0 ≤ i) && decide (goUint64OfInt i = m)
  | .untypedUintV m => decide (0 ≤ i) && decide (goUint64OfInt i = m)
  | .floatV _ f => fBeq (.fin (floatOfInt i)) f
  | .untypedFloatV f => fBeq (.fin (floatOfInt i)) f
  | _ => false

/-- `untypedUint.equals`: comparison of an untyped unsigned integer with value `u`
against `r`.  For a signed subject the source checks `v >= 0 && uint64(i) == uint64(v)`. -/
def untypedUintEquals (u : Nat) (r : GoVal) : Bool :=
  match r with
  | .uintV _ m => decide (u = m)
  | .untypedUintV m => decide (u = m)
  | .intV _ n => decide (0 ≤ n) && decide (u = goUint64OfInt n)
  | .untypedIntV n => decide (0 ≤ n) && decide (u = goUint64OfInt n)
  | .floatV _ f => fBeq (.fin (floatOfInt (u : Int))) f
  | .untypedFloatV f => fBeq (.fin (floatOfInt (u : Int))) f
  | _ => false

/-- `untypedFloat.equals`: equal only to float-kind subjects with the same value. -/
def untypedFloatEquals (f : F64) (r : GoVal) : Bool :=
  match r with
  | .floatV _ g => fBeq f g
  | .untypedFloatV g => fBeq f g
  | _ => false

/-- `untypedString.equals`: equal only to string-kind subjects with the same
character sequence.  `runtimeErrorV` has underlying kind String, and
`reflect.Value.String` yields its underlying string. -/
def untypedStringEquals (s : String) (r : GoVal) : Bool :=
  match r with
  | .stringV t => decide (s = t)
  | .untypedStringV t => decide (s = t)
  | .runtimeErrorV t => decide (s = t)
  | _ => false

/-- `untypedComplex.equals`: equal only to complex-kind subjects whose real and
imaginary parts both match. -/
def untypedComplexEquals (re im : F64) (r : GoVal) : Bool :=
  match r with
  | .complexV _ r2 i2 => fBeq re r2 && fBeq im i2
  | .untypedComplexV r2 i2 => fBeq re r2 && fBeq im i2
  | _ => false

/-- The `a.(ieq)` dispatch: `some (a.equals b)` when `a` is one of the five untyped
wrapper types (the only implementors of the `ieq` interface), `none` otherwise. -/
def untypedEqualsOpt : GoVal → GoVal → Option Bool
  | .untypedIntV n, b => some (untypedIntEquals n b)
  | .untypedUintV n, b => some (untypedUintEquals n b)
  | .untypedFloatV x, b => some (untypedFloatEquals x b)
  | .untypedStringV s, b => some (untypedStringEquals s b)
  | .untypedComplexV r i, b => some (untypedComplexEquals r i b)
  | _, _ => none

/-- The equality algorithm `eq(a, b)` of the source: native `==` first (which can
fault), then the nil checks, then `ieq` delegation from `a`, then from `b`, then
false.  `none` is the propagated run-time fault of step 1. -/
def eq (a b : GoVal) : Option Bool :=
  match goEq a b with
  | none => none
  | some true => some true
  | some false =>
    if isNilI a then some (equalsNil b)
    else if isNilI b then some (equalsNil a)
    else
      match untypedEqualsOpt a b with
      | some r => some r
      | none =>
        match untypedEqualsOpt b a with
        | some r => some r
        | none => some false

/-- `equals.Test`: `eq(c.expected, v)`. -/
def equalsTest (e v : GoVal) : Option Bool := eq e v

/-- `notEquals.Test`: the negation of `equals.Test`; a fault propagates. -/
def notEqualsTest (e v : GoVal) : Option Bool := (equalsTest e v).map (! ·)

mutual

/-- `reflect.DeepEqual` restricted to the `GoVal` fragment.  Scalars compare by
value; slices are deeply equal only when both are nil or both non-nil with the
same length and pairwise deeply equal elements; function values are deeply equal
only when both are nil; pointers compare by identity (the model carries no
pointee, so the pointees-deeply-equal alternative of `DeepEqual` is not
representable and distinct non-nil pointers compare unequal). -/
def goDeepEqual : GoVal → GoVal → Bool
  | .nilV, .nilV => true
  | .intV k n, .intV l m => decide (k = l) && decide (n = m)
  | .uintV k n, .uintV l m => decide (k = l) && decide (n = m)
  | .floatV k x, .floatV l y => decide (k = l) && fBeq x y
  | .complexV k r i, .complexV l r2 i2 => decide (k = l) && fBeq r r2 && fBeq i i2
  | .stringV s, .stringV t => decide (s = t)
  | .ptrV ty a, .ptrV ty2 a2 => decide (ty = ty2) && decide (a = a2)
  | .sliceV ty es, .sliceV ty2 fs =>
    decide (ty = ty2) &&
      match es, fs with
      | none, none => true
      | some l1, some l2 => goDeepEqualList l1 l2
      | _, _ => false
  | .funcV b, .funcV c => b.isNone && c.isNone
  | .runtimeErrorV m, .runtimeErrorV m2 => decide (m = m2)
  | .untypedIntV n, .untypedIntV m => decide (n = m)
  | .untypedUintV n, .untypedUintV m => decide (n = m)
  | .untypedFloatV x, .untypedFloatV y => fBeq x y
  | .untypedStringV s, .untypedStringV t => decide (s = t)
  | .untypedComplexV r i, .untypedComplexV r2 i2 => fBeq r r2 && fBeq i i2
  | _, _ => false

/-- Pairwise deep equality of slice contents (false when the lengths differ). -/
def goDeepEqualList : List GoVal → List GoVal → Bool
  | [], [] => true
  | a :: l1, b :: l2 => goDeepEqual a b && goDeepEqualList l1 l2
  | _, _ => false

end

/-- The length `reflect.ValueOf(v).Len()` of a slice value (0 for a nil slice). -/
def sliceLen : GoVal → Nat
  | .sliceV _ (some l) => l.length
  | _ => 0

/-- The declared slice type of a slice value. -/
def sliceTyOpt : GoVal → Option String
  | .sliceV ty _ => some ty
  | _ => none

/-- `equalsSlice.Test`: panics (`none`) when a non-nil-interface operand is not of
slice kind or when two slice operands have different declared types; a nil
interface operand equals a slice operand of length 0; otherwise
`reflect.DeepEqual(v, expected)`.  The checks follow the source's order:
subject type, expected type, subject nil, expected nil, type mismatch, DeepEqual. -/
def equalsSliceTest (e v : GoVal) : Option Bool :=
  if !isNilI v && !isSliceB v then none
  else if !isNilI e && !isSliceB e then none
  else if isNilI v then
    if !isNilI e && decide (sliceLen e ≠ 0) then some false else some true
  else if isNilI e then
    if !isNilI v && decide (sliceLen v ≠ 0) then some false else some true
  else if sliceTyOpt v ≠ sliceTyOpt e then none
  else some (goDeepEqual v e)

/-- The value captured by the deferred `recover()` of the panic-guarding Tests,
as a function of a `func()` value's behaviour: the thrown value when the function
panics, the nil interface when it returns normally, and the runtime nil-pointer
error when the function value itself is nil (calling a nil function faults inside
the guarded region, so the recover still captures it). -/
def capturedOf : Option (Option GoVal) → GoVal
  | none => .runtimeErrorV "runtime error: invalid memory address or nil pointer dereference"
  | some none => .nilV
  | some (some x) => x

/-- `panics.Test`: a non-`func()` subject is an invalid-usage fault raised before
the deferred capture is installed (`none`); otherwise the call is guarded, the
recovered value captured, and the result is `eq(expected, got)` computed inside
the deferred function (whose own fault, if any, propagates). -/
def panicsTest (expected : GoVal) (v : GoVal) : Option Bool :=
  match v with
  | .funcV b => eq expected (capturedOf b)
  | _ => none

/-- `panicMatches.Test`: same guarded-invocation procedure with a predicate applied
to the captured value. -/
def panicMatchesTest (p : GoVal → Bool) (v : GoVal) : Option Bool :=
  match v with
  | .funcV b => some (p (capturedOf b))
  | _ => none

/-- Rendering of a floating-point datum under `fmt`'s `%v`.  Integral finite values
print as plain integers (this is the only float rendering the library's tests
exercise); for non-integral values Go uses the shortest decimal representation,
approximated here by the rational's own textual form. -/
def fltStr : F64 → String
  | .nan => "NaN"
  | .inf false => "+Inf"
  | .inf true => "-Inf"
  | .fin q => if q.den = 1 then toString q.num else toString q

mutual

/-- `fmt.Sprintf("%v", v)` on the modelled fragment: `<nil>` for the nil interface,
nil pointers and nil functions; decimal for integers (untyped wrappers print as
their underlying numeric value); `[e1 e2 ...]` for slices and `[]` for nil slices;
the error text for a runtime error.  Pointer and function addresses are not
modelled, so non-nil pointers render from the abstract address and non-nil
functions as a fixed address placeholder; complex rendering approximates Go's
`(re+imi)` form.  None of these unmodelled renderings is relied on by a theorem. -/
def goStr : GoVal → String
  | .nilV => "<nil>"
  | .intV _ n => toString n
  | .uintV _ n => toString n
  | .floatV _ x => fltStr x
  | .complexV _ re im => "(" ++ fltStr re ++ "+" ++ fltStr im ++ "i)"
  | .stringV s => s
  | .ptrV _ none => "<nil>"
  | .ptrV _ (some a) => "0x" ++ toString a
  | .sliceV _ none => "[]"
  | .sliceV _ (some es) => "[" ++ String.intercalate " " (goStrList es) ++ "]"
  | .funcV none => "<nil>"
  | .funcV (some _) => "0x0"
  | .runtimeErrorV m => m
  | .untypedIntV n => toString n
  | .untypedUintV n => toString n
  | .untypedFloatV x => fltStr x
  | .untypedStringV s => s
  | .untypedComplexV re im => "(" ++ fltStr re ++ "+" ++ fltStr im ++ "i)"

/-- `%v` rendering of each element of a slice. -/
def goStrList : List GoVal → List String
  | [] => []
  | v :: vs => goStr v :: goStrList vs

end

/-- `fmt.Sprintf("%T", v)`: the dynamic type's string.  `%T` of a nil interface is
`<nil>`; the untyped wrappers print with their package-qualified names. -/
def goTypeStr : GoVal → String
  | .nilV => "<nil>"
  | .intV k _ =>
    match k with
    | .int => "int"
    | .int8 => "int8"
    | .int16 => "int16"
    | .int32 => "int32"
    | .int64 => "int64"
  | .uintV k _ =>
    match k with
    | .uint => "uint"
    | .uint8 => "uint8"
    | .uint16 => "uint16"
    | .uint32 => "uint32"
    | .uint64 => "uint64"
  | .floatV k _ =>
    match k with
    | .float32 => "float32"
    | .float64 => "float64"
  | .complexV k _ _ =>
    match k with
    | .complex64 => "complex64"
    | .complex128 => "complex128"
  | .stringV _ => "string"
  | .ptrV ty _ => ty
  | .sliceV ty _ => ty
  | .funcV _ => "func()"
  | .runtimeErrorV _ => "runtime.plainError"
  | .untypedIntV _ => "asserting.untypedInt"
  | .untypedUintV _ => "asserting.untypedUint"
  | .untypedFloatV _ => "asserting.untypedFloat"
  | .untypedStringV _ => "asserting.untypedString"
  | .untypedComplexV _ _ => "asserting.untypedComplex"

/-- The `%[1]v(%[1]T)` annotation used by `formatMsg` when both plain renderings
coincide. -/
def annot (x : GoVal) : String := goStr x ++ "(" ++ goTypeStr x ++ ")"

/-- The argument-rendering step of `formatMsg`: both arguments are rendered with
`%v`; when the two renderings are identical strings, both are re-rendered with the
kind/type annotation `%v(%T)` to disambiguate. -/
def formatMsgPair (a b : GoVal) : String × String :=
  let s1 := goStr a
  let s2 := goStr b
  if s1 = s2 then (annot a, annot b) else (s1, s2)

/-- `equals.Message`: `formatMsg("expected <%v> but was <%v>", expected, v)`. -/
def equalsMessage (e v : GoVal) : String :=
  let p := formatMsgPair e v
  "expected <" ++ p.1 ++ "> but was <" ++ p.2 ++ ">"

/-- `notEquals.Message`: plain `Sprintf`, no annotation logic. -/
def notEqualsMessage (v : GoVal) : String := "unexpected <" ++ goStr v ++ ">"

/-- `matches.Message`. -/
def matchesMessage (v : GoVal) : String := "unexpected <" ++ goStr v ++ ">"

/-- The " (didn\x27t panic?)" suffix appended when the captured value is nil. -/
def nilExplain (got : GoVal) : String :=
  match got with
  | .nilV => " (didn\x27t panic?)"
  | _ => ""

/-- `panics.Message`: `formatMsg` on the expected and captured values.  The source
reads the captured value from the variant's transient `got` field, which Assert
populates by running Test on the same subject first; the model re-derives it from
the subject. -/
def panicsMessage (expected : GoVal) (v : GoVal) : String :=
  let got := match v with | .funcV b => capturedOf b | _ => .nilV
  let p := formatMsgPair expected got
  "expected to panic with <" ++ p.1 ++ "> but <" ++ p.2 ++ ">" ++ nilExplain got

/-- `panicMatches.Message`: plain `Sprintf` on the captured value. -/
def panicMatchesMessage (v : GoVal) : String :=
  let got := match v with | .funcV b => capturedOf b | _ => .nilV
  "unexpected panic <" ++ goStr got ++ ">" ++ nilExplain got

/-- `equalsSlice.Message`: `formatMsg` like `equals.Message`. -/
def equalsSliceMessage (e v : GoVal) : String :=
  let p := formatMsgPair e v
  "expected <" ++ p.1 ++ "> but was <" ++ p.2 ++ ">"

/-- The condition wrapper `cond.cond`: a condition variant's Test and default
Message, plus the optional user message override and the fatal flag.  The
SetMessage/SetMessageFunc override is carried as the resolved string (the
at-most-once lazy evaluation of a message function has no further observable
effect in this embedding). -/
structure Cond where
  test : GoVal → Option Bool
  defaultMsg : GoVal → String
  userMsg : Option String
  isFatal : Bool

/-- `cond.Message`: the override when present, else the variant's Message. -/
def condMessage (c : Cond) (v : GoVal) : String :=
  match c.userMsg with
  | some m => m
  | none => c.defaultMsg v

/-- `SetMessage`: installs a fixed message override, returns the wrapper. -/
def setMessage (c : Cond) (m : String) : Cond := { c with userMsg := some m }

/-- `SetFatal`: marks the wrapper as aborting severity. -/
def setFatal (c : Cond) : Cond := { c with isFatal := true }

/-- `Equals(expected)`: a fresh wrapper around the equals variant. -/
def EqualsC (e : GoVal) : Cond := ⟨equalsTest e, equalsMessage e, none, false⟩

/-- `NotEquals(unexpected)`. -/
def NotEqualsC (e : GoVal) : Cond := ⟨notEqualsTest e, notEqualsMessage, none, false⟩

/-- `Matches(f)`. -/
def MatchesC (p : GoVal → Bool) : Cond := ⟨fun v => some (p v), matchesMessage, none, false⟩

/-- `Panics(expected)`. -/
def PanicsC (e : GoVal) : Cond := ⟨panicsTest e, panicsMessage e, none, false⟩

/-- `PanicMatches(f)`. -/
def PanicMatchesC (p : GoVal → Bool) : Cond := ⟨panicMatchesTest p, panicMatchesMessage, none, false⟩

/-- `EqualsSlice(expected)`. -/
def EqualsSliceC (e : GoVal) : Cond := ⟨equalsSliceTest e, equalsSliceMessage e, none, false⟩

/-- The observable outcome of one `TB.Assert` call against the host reporter:
silent success, a continuing `t.Error(msg)` report, an aborting `t.Fatal(msg)`
report, or an invalid-usage fault that propagates uncaught out of Assert (and is
therefore never delivered to the reporter). -/
inductive Outcome where
  | pass
  | errorRep (msg : String)
  | fatalRep (msg : String)
  | fault
  deriving DecidableEq, Repr

/-- A subject value passed to Assert: either an ordinary value or the unexported
deferred-error carrier `*hasError` produced by ValueError/ValueErrorFatal. -/
inductive Subject where
  | val (v : GoVal)
  | hasErr (message : String) (fatal : Bool)

/-- The non-carrier path of `TB.Assert`: run Test (a fault propagates), succeed
silently on true, otherwise resolve the message and dispatch at the wrapper's
severity. -/
def assertVal (v : GoVal) (c : Cond) : Outcome :=
  match c.test v with
  | none => .fault
  | some true => .pass
  | some false =>
    if c.isFatal then .fatalRep (condMessage c v) else .errorRep (condMessage c v)

/-- `TB.Assert`: a deferred-error carrier short-circuits to asserting `0` against a
synthetic `Equals(nil)` wrapper carrying the stored message and fatal flag (the
supplied condition is never consulted); any other subject runs the supplied
condition. -/
def assert (s : Subject) (c : Cond) : Outcome :=
  match s with
  | .hasErr m fat =>
    assertVal (.intV .int 0)
      (if fat then setFatal (setMessage (EqualsC .nilV) m) else setMessage (EqualsC .nilV) m)
  | .val v => assertVal v c

/-- `ValueError(v, err)`: with a nil error the value passes through unchanged;
otherwise a non-fatal carrier with message `unexpected error <err>` is produced. -/
def ValueError (v : GoVal) (err : Option String) : Subject :=
  match err with
  | some e => .hasErr ("unexpected error <" ++ e ++ ">") false
  | none => .val v

/-- `ValueErrorFatal(v, err)`: like ValueError but the carrier is fatal. -/
def ValueErrorFatal (v : GoVal) (err : Option String) : Subject :=
  match err with
  | some e => .hasErr ("unexpected error <" ++ e ++ ">") true
  | none => .val v

/-- Whether the value is an untyped integer or untyped unsigned wrapper. -/
def isUIntLike : GoVal → Bool
  | .untypedIntV _ => true
  | .untypedUintV _ => true
  | _ => false

/-- Whether the value is an untyped float wrapper. -/
def isUFloat : GoVal → Bool
  | .untypedFloatV _ => true
  | _ => false

/-- The pairs on which the two kind-specific comparison rules disagree: an untyped
integer or untyped unsigned on one side and an untyped float on the other (the
integer side's rule accepts Float64 subjects, while `untypedFloat.equals` accepts
only Float32/Float64 subjects and an untyped integer has kind Int64/Uint64). -/
def badPair (a b : GoVal) : Bool :=
  (isUIntLike a && isUFloat b) || (isUFloat a && isUIntLike b)

/-- Whether the dynamic type is comparable under Go `==` (slices and functions are
the non-comparable kinds in the modelled fragment). -/
def comparableV : GoVal → Bool
  | .sliceV _ _ => false
  | .funcV _ => false
  | _ => true

/-- Whether a floating-point datum is NaN. -/
def isNaNF : F64 → Bool
  | .nan => true
  | _ => false

/-- Whether the value contains no NaN component (NaN is the one value Go's `==`
does not relate to itself). -/
def noNaN : GoVal → Bool
  | .floatV _ x => !isNaNF x
  | .untypedFloatV x => !isNaNF x
  | .complexV _ re im => !(isNaNF re || isNaNF im)
  | .untypedComplexV re im => !(isNaNF re || isNaNF im)
  | _ => true

/-- Go's `==` on floats is symmetric. -/
theorem fBeq_comm (x y : F64) : fBeq x y = fBeq y x := by
  cases x <;> cases y <;> simp [fBeq] <;> exact ⟨fun h => h.symm, fun h => h.symm⟩

/-- Go's native interface equality is symmetric (including its fault cases). -/
theorem goEq_comm (a b : GoVal) : goEq a b = goEq b a := by
  cases a <;> cases b <;>
    simp only [goEq] <;>
    simp [fBeq_comm, Bool.and_comm, Bool.and_assoc, Bool.and_left_comm, eq_comm]

/-- Only the nil interface satisfies `isNilI`. -/
theorem isNilI_eq_true {a : GoVal} (h : isNilI a = true) : a = .nilV := by
  cases a <;> simp_all [isNilI]

/-- On every pair where both sides are untyped wrappers and the pair is not one of
the disagreeing integer/float combinations, the two delegated comparisons agree. -/
theorem untypedEquals_agree {a b : GoVal} {r s : Bool} (h : badPair a b = false)
    (hab : untypedEqualsOpt a b = some r) (hba : untypedEqualsOpt b a = some s) : r = s := by
  cases a <;> cases b <;>
    simp_all [untypedEqualsOpt, untypedIntEquals, untypedUintEquals, untypedFloatEquals,
      untypedStringEquals, untypedComplexEquals, badPair, isUIntLike, isUFloat,
      fBeq_comm, Bool.and_comm, eq_comm]

/-- C1 (amended): the equality algorithm `eq` is symmetric on every pair of values
except when one operand is an untyped integer or untyped unsigned and the other an
untyped float: there the integer side's rule (whose switch accepts Float64
subjects) can return true while `untypedFloat.equals` (whose switch accepts only
float kinds, and an untyped integer has kind Int64/Uint64) returns false.  On all
other pairs, including every pair with at most one untyped operand, `eq(a, b)`
agrees with `eq(b, a)`, fault cases included. -/
theorem c1_eq_symmetric_outside_int_float_untyped_pairs (a b : GoVal)
    (h : badPair a b = false) : eq a b = eq b a := by
  unfold eq
  rw [goEq_comm]
  cases hg : goEq b a with
  | none => rfl
  | some t =>
    cases t with
    | true => rfl
    | false =>
      by_cases ha : isNilI a = true
      · by_cases hb : isNilI b = true
        · rw [isNilI_eq_true ha, isNilI_eq_true hb]
        · simp [ha, hb]
      · by_cases hb : isNilI b = true
        · simp [ha, hb]
        · simp only [ha, hb, if_false, Bool.false_eq_true]
          cases hab : untypedEqualsOpt a b with
          | some r =>
            cases hba : untypedEqualsOpt b a with
            | some s => simp [hab, hba, untypedEquals_agree h hab hba]
            | none => simp [hab, hba]
          | none =>
            cases hba : untypedEqualsOpt b a with
            | some s => simp [hab, hba]
            | none => simp [hab, hba]

/-- C1 (counterexample): `eq` is not symmetric as claimed: an untyped integer 1
compares equal to an untyped float 1, but the swapped comparison is false. -/
theorem c1_eq_symmetry_cex :
    eq (.untypedIntV 1) (.untypedFloatV (.fin 1)) = some true ∧
    eq (.untypedFloatV (.fin 1)) (.untypedIntV 1) = some false := by decide

/-- C1 witness: the symmetry theorem applied at a concrete non-excluded pair. -/
theorem c1_eq_symmetric_outside_int_float_untyped_pairs_witness :
    badPair (.intV .int 1) (.stringV "a") = false ∧
    eq (.intV .int 1) (.stringV "a") = eq (.stringV "a") (.intV .int 1) :=
  ⟨by decide, c1_eq_symmetric_outside_int_float_untyped_pairs _ _ (by decide)⟩

/-- C2 (amended): for every value `x` whose dynamic type is comparable under Go
`==` and which contains no NaN component, `Equals(x).Test(x)` returns true and
`NotEquals(x).Test(x)` returns false, completing normally.  (For a subject of
non-comparable kind the very first step of `eq`, the native `a == b` comparison,
is a run-time fault, and a NaN-valued subject fails both `==` and its own
kind-specific comparison, so the unrestricted claim is false.) -/
theorem c2_equals_self_holds_for_comparable_non_nan (x : GoVal)
    (h1 : comparableV x = true) (h2 : noNaN x = true) :
    equalsTest x x = some true ∧ notEqualsTest x x = some false := by
  have he : equalsTest x x = some true := by
    cases x with
    | floatV k f => cases f <;> simp_all [equalsTest, eq, goEq, fBeq, noNaN, isNaNF]
    | untypedFloatV f => cases f <;> simp_all [equalsTest, eq, goEq, fBeq, noNaN, isNaNF]
    | complexV k re im =>
      cases re <;> cases im <;> simp_all [equalsTest, eq, goEq, fBeq, noNaN, isNaNF]
    | untypedComplexV re im =>
      cases re <;> cases im <;> simp_all [equalsTest, eq, goEq, fBeq, noNaN, isNaNF]
    | sliceV ty es => simp [comparableV] at h1
    | funcV b => simp [comparableV] at h1
    | _ => simp [equalsTest, eq, goEq]
  exact ⟨he, by simp [notEqualsTest, he]⟩

/-- C2 (counterexample): for a subject of non-comparable kind (here a non-nil
slice) `Equals(x).Test(x)` does not complete normally at all: the native `==`
of step 1 of `eq` faults on two interface values with the same non-comparable
dynamic type. -/
theorem c2_equals_self_cex :
    equalsTest (.sliceV "[]int" (some [.intV .int 1])) (.sliceV "[]int" (some [.intV .int 1]))
      = none ∧
    equalsTest (.sliceV "[]int" (some [.intV .int 1])) (.sliceV "[]int" (some [.intV .int 1]))
      ≠ some true := by decide

/-- C2 witness: the amended theorem applied at a concrete untyped float value. -/
theorem c2_equals_self_holds_for_comparable_non_nan_witness :
    comparableV (.untypedFloatV (.fin 1)) = true ∧ noNaN (.untypedFloatV (.fin 1)) = true ∧
    (equalsTest (.untypedFloatV (.fin 1)) (.untypedFloatV (.fin 1)) = some true ∧
     notEqualsTest (.untypedFloatV (.fin 1)) (.untypedFloatV (.fin 1)) = some false) :=
  ⟨by decide, by decide,
    c2_equals_self_holds_for_comparable_non_nan _ (by decide) (by decide)⟩

/-- C3: the claim (and the source's own doc comment "nil equals to empty slice")
says a typed nil slice and an empty non-nil slice of the same declared type are
EqualsSlice-equal in both directions, but the code reaches
`reflect.DeepEqual`, which requires both slices to be nil or both non-nil, so
both directions return false; only the untyped nil interface operand (whose
reflect type is nil) receives the nil-equals-empty rule. -/
theorem c3_typed_nil_vs_empty_slice_is_false :
    equalsSliceTest (.sliceV "[]int" none) (.sliceV "[]int" (some [])) = some false ∧
    equalsSliceTest (.sliceV "[]int" (some [])) (.sliceV "[]int" none) = some false ∧
    equalsSliceTest .nilV (.sliceV "[]int" (some [])) = some true ∧
    equalsSliceTest (.sliceV "[]int" (some [])) .nilV = some true := by decide

/-- C4 (amended): an untyped integer or untyped unsigned compares against a float
subject by converting the integer to float64 (round to nearest) and comparing
exactly; whenever the integer's magnitude is at most `2^53` the conversion is
exact, and equality holds iff the float's exact mathematical value is the
integer.  (Beyond `2^53` the conversion rounds, so the unrestricted
"iff the float exactly represents the integer" claim fails.) -/
theorem c4_untyped_int_vs_float_exact_below_2_53 (n : Int) (u : Nat) (fk : FKind) (q : ℚ)
    (hn : n.natAbs ≤ 2 ^ 53) (hu : u ≤ 2 ^ 53) :
    (eq (.untypedIntV n) (.floatV fk (.fin q)) = some true ↔ q = (n : ℚ)) ∧
    (eq (.untypedUintV u) (.floatV fk (.fin q)) = some true ↔ q = (u : ℚ)) := by
  have hfn : floatOfInt n = (n : ℚ) := by
    simp only [floatOfInt]
    rw [if_pos hn]
  have hfu : floatOfInt (u : Int) = ((u : Int) : ℚ) := by
    simp only [floatOfInt, Int.natAbs_ofNat]
    rw [if_pos hu]
  constructor
  · simp [eq, goEq, isNilI, untypedEqualsOpt, untypedIntEquals, fBeq, hfn, eq_comm]
  · simp [eq, goEq, isNilI, untypedEqualsOpt, untypedUintEquals, fBeq, hfu, eq_comm]

/-- C4 (counterexample): the integer `2^54 + 1` is not exactly representable, the
conversion rounds it to `2^54`, and the code therefore declares it equal to the
float64 `2^54` even though that float's exact value differs from the integer. -/
theorem c4_untyped_int_vs_float_rounding_cex :
    eq (.untypedIntV (2 ^ 54 + 1)) (.floatV .float64 (.fin (2 ^ 54))) = some true ∧
    ((2 ^ 54 : ℚ) ≠ ((2 ^ 54 + 1 : Int) : ℚ)) := by
  constructor
  · decide
  · decide

/-- C4 witness: the amended theorem applied at 100 versus float 100. -/
theorem c4_untyped_int_vs_float_exact_below_2_53_witness :
    (100 : Int).natAbs ≤ 2 ^ 53 ∧ (100 : Nat) ≤ 2 ^ 53 ∧
    eq (.untypedIntV 100) (.floatV .float64 (.fin 100)) = some true ∧
    eq (.untypedUintV 100) (.floatV .float64 (.fin 100)) = some true := by
  have h := c4_untyped_int_vs_float_exact_below_2_53 100 100 .float64 100
    (by decide) (by decide)
  exact ⟨by decide, by decide, h.1.mpr (by norm_num), h.2.mpr (by norm_num)⟩

/-- C5: a ValueError with a nil error asserts the value directly; with a non-nil
error, Assert always reports `unexpected error <err>` as a continuing failure,
whatever condition was supplied (the condition is never consulted: the outcome is
the same for any two conditions); ValueErrorFatal reports the same message at
aborting severity. -/
theorem c5_value_error_carrier (v : GoVal) (c c2 : Cond) (emsg : String) :
    assert (ValueError v none) c = assert (.val v) c ∧
    assert (ValueError v (some emsg)) c = .errorRep ("unexpected error <" ++ emsg ++ ">") ∧
    assert (ValueError v (some emsg)) c = assert (ValueError v (some emsg)) c2 ∧
    assert (ValueErrorFatal v (some emsg)) c = .fatalRep ("unexpected error <" ++ emsg ++ ">") :=
  ⟨rfl, rfl, rfl, rfl⟩

/-- C6: within the int64 range, an untyped integer equals an unsigned subject iff
it is non-negative and the numeric values match exactly; an untyped unsigned
equals a signed subject iff the subject is non-negative and the values match; and
a negative untyped integer never equals any unsigned subject, whatever the
subject's bit pattern. -/
theorem c6_untyped_int_sign_rules (i : Int) (uk : UKind) (m : Nat) (u : Nat)
    (sk : SKind) (v : Int)
    (hi1 : -(2 ^ 63) ≤ i) (hi2 : i < 2 ^ 63) (hv1 : -(2 ^ 63) ≤ v) (hv2 : v < 2 ^ 63) :
    (eq (.untypedIntV i) (.uintV uk m) = some true ↔ 0 ≤ i ∧ i = (m : Int)) ∧
    (eq (.untypedUintV u) (.intV sk v) = some true ↔ 0 ≤ v ∧ (u : Int) = v) ∧
    (i < 0 → eq (.untypedIntV i) (.uintV uk m) = some false) := by
  have key1 : eq (.untypedIntV i) (.uintV uk m)
      = some (decide (0 ≤ i) && decide (goUint64OfInt i = m)) := rfl
  have key2 : eq (.untypedUintV u) (.intV sk v)
      = some (decide (0 ≤ v) && decide (u = goUint64OfInt v)) := rfl
  refine ⟨?_, ?_, ?_⟩
  · rw [key1]
    simp only [Option.some.injEq, Bool.and_eq_true, decide_eq_true_eq, goUint64OfInt,
      show (2 : Int) ^ 64 = 18446744073709551616 by norm_num]
    omega
  · rw [key2]
    simp only [Option.some.injEq, Bool.and_eq_true, decide_eq_true_eq, goUint64OfInt,
      show (2 : Int) ^ 64 = 18446744073709551616 by norm_num]
    omega
  · intro hneg
    rw [key1]
    have h0 : decide (0 ≤ i) = false := by simp only [decide_eq_false_iff_not]; omega
    simp [h0]

/-- C6 witness: the sign rules applied at concrete values. -/
theorem c6_untyped_int_sign_rules_witness :
    eq (.untypedIntV 100) (.uintV .uint8 100) = some true ∧
    eq (.untypedUintV 100) (.intV .int16 100) = some true ∧
    eq (.untypedIntV (-100)) (.uintV .uint64 18446744073709551516) = some false := by
  have h := c6_untyped_int_sign_rules 100 .uint8 100 100 .int16 100
    (by decide) (by decide) (by decide) (by decide)
  have h2 := c6_untyped_int_sign_rules (-100) .uint64 18446744073709551516 0 .int 0
    (by decide) (by decide) (by decide) (by decide)
  exact ⟨h.1.mpr (by norm_num), h.2.1.mpr (by norm_num), h2.2.2 (by norm_num)⟩

/-- C7: applying Panics or PanicMatches to a subject that is not a `func()`, or
EqualsSlice where a non-nil operand is not a slice or the two slice operands have
different declared types, is an invalid-usage fault: Assert's outcome is `fault`,
which propagates uncaught and is never delivered to the reporter (it is neither
an `errorRep` nor a `fatalRep`). -/
theorem c7_invalid_usage_faults (e w e2 : GoVal) (p : GoVal → Bool) (v : GoVal)
    (hv : isFuncB v = false)
    (hsl : (isNilI w = false ∧ isSliceB w = false) ∨
           (isNilI e2 = false ∧ isSliceB e2 = false) ∨
           (isSliceB w = true ∧ isSliceB e2 = true ∧ sliceTyOpt w ≠ sliceTyOpt e2)) :
    assert (.val v) (PanicsC e) = .fault ∧
    assert (.val v) (PanicMatchesC p) = .fault ∧
    assert (.val w) (EqualsSliceC e2) = .fault := by
  refine ⟨?_, ?_, ?_⟩
  · cases v <;> simp_all [isFuncB, assert, assertVal, PanicsC, panicsTest]
  · cases v <;> simp_all [isFuncB, assert, assertVal, PanicMatchesC, panicMatchesTest]
  · cases w <;> cases e2 <;>
      simp_all [assert, assertVal, EqualsSliceC, equalsSliceTest, isNilI, isSliceB, sliceTyOpt]

/-- C7 witness: the fault theorem applied at concrete invalid usages. -/
theorem c7_invalid_usage_faults_witness :
    isFuncB (.intV .int 3) = false ∧
    (assert (.val (.intV .int 3)) (PanicsC (.intV .int 1)) = .fault ∧
     assert (.val (.intV .int 3)) (PanicMatchesC (fun _ => true)) = .fault ∧
     assert (.val (.stringV "x")) (EqualsSliceC .nilV) = .fault) :=
  ⟨by decide,
    c7_invalid_usage_faults (.intV .int 1) (.stringV "x") .nilV (fun _ => true) (.intV .int 3)
      (by decide) (Or.inl ⟨by decide, by decide⟩)⟩

/-- C8 (amended): for every `func()` subject, the guarded-invocation procedure
always produces the captured value (the thrown value when the function panics,
the nil interface when it returns normally, the runtime nil-dereference error
when the function value is nil) and the Test result is the expected-value
equality (Panics) or the predicate (PanicMatches) applied to that captured
value; Panics returns normally whenever that equality application itself does
not fault.  (When the expected and captured values share a non-comparable
dynamic type, the equality inside the deferred capture faults, so the
unrestricted "returns normally whether or not f throws" claim fails.) -/
theorem c8_guarded_invocation_capture (p : GoVal → Bool) (e : GoVal)
    (b : Option (Option GoVal)) (r : Bool)
    (h : eq e (capturedOf b) = some r) :
    panicsTest e (.funcV b) = some r ∧
    panicMatchesTest p (.funcV b) = some (p (capturedOf b)) ∧
    capturedOf (some none) = .nilV :=
  ⟨by simp [panicsTest, h], rfl, rfl⟩

/-- C8 (counterexample): a callable that panics with a slice value, guarded by
Panics with a slice expectation of the same declared type, makes the equality of
the capture step fault, so Test does not return normally even though the capture
itself ran. -/
theorem c8_guarded_invocation_cex :
    panicsTest (.sliceV "[]int" (some [.intV .int 2]))
      (.funcV (some (some (.sliceV "[]int" (some [.intV .int 1]))))) = none := by decide

/-- C8 witness: the capture theorem applied at a function that panics with 7. -/
theorem c8_guarded_invocation_capture_witness :
    eq (.intV .int 7) (capturedOf (some (some (.intV .int 7)))) = some true ∧
    (panicsTest (.intV .int 7) (.funcV (some (some (.intV .int 7)))) = some true ∧
     panicMatchesTest (fun _ => true) (.funcV (some (some (.intV .int 7)))) = some true ∧
     capturedOf (some none) = .nilV) :=
  ⟨by decide,
    c8_guarded_invocation_capture (fun _ => true) (.intV .int 7)
      (some (some (.intV .int 7))) true (by decide)⟩

/-- C9: the Equals failure message annotates both sides with their `%T` type
exactly when the plain `%v` renderings coincide; otherwise both sides render
plainly as `expected <e> but was <v>`. -/
theorem c9_equals_message_type_tagging (e v : GoVal) :
    (goStr e = goStr v →
      equalsMessage e v = "expected <" ++ annot e ++ "> but was <" ++ annot v ++ ">") ∧
    (goStr e ≠ goStr v →
      equalsMessage e v = "expected <" ++ goStr e ++ "> but was <" ++ goStr v ++ ">") := by
  constructor <;> intro h <;> simp [equalsMessage, formatMsgPair, h]

/-- C9 witness: two typed nil pointers of different pointee types print alike, so
both sides receive the type annotation, reproducing the repository's own test
string. -/
theorem c9_equals_message_type_tagging_witness :
    goStr (.ptrV "*uint8" none) = goStr (.ptrV "*int" none) ∧
    equalsMessage (.ptrV "*uint8" none) (.ptrV "*int" none)
      = "expected <<nil>(*uint8)> but was <<nil>(*int)>" := by
  refine ⟨rfl, ?_⟩
  rw [(c9_equals_message_type_tagging (.ptrV "*uint8" none) (.ptrV "*int" none)).1 rfl]
  decide

/-- C10: a callable that returns normally satisfies `Panics(nil)`: the captured
value is the nil interface and `eq(nil, nil)` is true by the native equality of
two nil interface values. -/
theorem c10_panics_nil_on_normal_return :
    panicsTest .nilV (.funcV (some none)) = some true ∧
    capturedOf (some none) = .nilV ∧
    eq .nilV .nilV = some true :=
  ⟨rfl, rfl, rfl⟩

end Asserting
